import Mathlib

set_option maxRecDepth 100000

/-!
# Verification of the Gate.io rollover-trading engine

A shallow embedding, in Lean 4, of the order-execution core of the
`gate` repository (`main.py`, with the request signer also present in
`bot.py`), together with proofs and refutations of the specified
properties.

Conventions of the embedding:
* byte strings are `List Nat` with every element `< 256`;
* 64-bit machine arithmetic is `Nat` arithmetic reduced `% 2^64`;
* Python `Decimal` / exact decimal arithmetic is modelled by `ℚ`;
* Python functions that raise are modelled with `Except String`;
* the network is modelled by an environment that fixes the outcome of
  each HTTP call the executor makes.
-/

/-! ## SHA-512 (FIPS 180-4), over `Nat` bytes -/

/-- The modulus of 64-bit machine arithmetic, `2^64`. -/
def w64 : Nat := 2 ^ 64

/-- Right-rotation of a 64-bit word. -/
def rotr64 (x n : Nat) : Nat := (x >>> n) ||| ((x <<< (64 - n)) % w64)

/-- SHA-512 choice function. -/
def shaCh (x y z : Nat) : Nat := (x &&& y) ^^^ (((w64 - 1) ^^^ x) &&& z)

/-- SHA-512 majority function. -/
def shaMaj (x y z : Nat) : Nat := (x &&& y) ^^^ (x &&& z) ^^^ (y &&& z)

/-- SHA-512 Σ₀. -/
def bigSigma0 (x : Nat) : Nat := rotr64 x 28 ^^^ rotr64 x 34 ^^^ rotr64 x 39

/-- SHA-512 Σ₁. -/
def bigSigma1 (x : Nat) : Nat := rotr64 x 14 ^^^ rotr64 x 18 ^^^ rotr64 x 41

/-- SHA-512 σ₀. -/
def smallSigma0 (x : Nat) : Nat := rotr64 x 1 ^^^ rotr64 x 8 ^^^ (x >>> 7)

/-- SHA-512 σ₁. -/
def smallSigma1 (x : Nat) : Nat := rotr64 x 19 ^^^ rotr64 x 61 ^^^ (x >>> 6)

/-- Big-endian interpretation of a byte list as one number. -/
def beWord (bs : List Nat) : Nat := bs.foldl (fun acc b => acc * 256 + b) 0

/-- Big-endian byte representation of `n`, `len` bytes wide. -/
def toBytesBE (n len : Nat) : List Nat :=
  (List.range len).map (fun i => (n >>> (8 * (len - 1 - i))) % 256)

/-- Split a list into consecutive chunks of `k` elements; structural
recursion on a fuel bound so the kernel can evaluate it. -/
def listChunksGo (k : Nat) : Nat → List Nat → List (List Nat)
  | 0, _ => []
  | _, [] => []
  | fuel + 1, x :: xs => (x :: xs).take k :: listChunksGo k fuel ((x :: xs).drop k)

/-- Split a list into consecutive chunks of `k` elements (`k > 0`). -/
def listChunks (k : Nat) (l : List Nat) : List (List Nat) :=
  listChunksGo k l.length l

/-- The 80 SHA-512 round constants. -/
def sha512K : List Nat := [
  4794697086780616226, 8158064640168781261, 13096744586834688815, 16840607885511220156,
  4131703408338449720, 6480981068601479193, 10538285296894168987, 12329834152419229976,
  15566598209576043074, 1334009975649890238, 2608012711638119052, 6128411473006802146,
  8268148722764581231, 9286055187155687089, 11230858885718282805, 13951009754708518548,
  16472876342353939154, 17275323862435702243, 1135362057144423861, 2597628984639134821,
  3308224258029322869, 5365058923640841347, 6679025012923562964, 8573033837759648693,
  10970295158949994411, 12119686244451234320, 12683024718118986047, 13788192230050041572,
  14330467153632333762, 15395433587784984357, 489312712824947311, 1452737877330783856,
  2861767655752347644, 3322285676063803686, 5560940570517711597, 5996557281743188959,
  7280758554555802590, 8532644243296465576, 9350256976987008742, 10552545826968843579,
  11727347734174303076, 12113106623233404929, 14000437183269869457, 14369950271660146224,
  15101387698204529176, 15463397548674623760, 17586052441742319658, 1182934255886127544,
  1847814050463011016, 2177327727835720531, 2830643537854262169, 3796741975233480872,
  4115178125766777443, 5681478168544905931, 6601373596472566643, 7507060721942968483,
  8399075790359081724, 8693463985226723168, 9568029438360202098, 10144078919501101548,
  10430055236837252648, 11840083180663258601, 13761210420658862357, 14299343276471374635,
  14566680578165727644, 15097957966210449927, 16922976911328602910, 17689382322260857208,
  500013540394364858, 748580250866718886, 1242879168328830382, 1977374033974150939,
  2944078676154940804, 3659926193048069267, 4368137639120453308, 4836135668995329356,
  5532061633213252278, 6448918945643986474, 6902733635092675308, 7801388544844847127]

/-- The 8 initial SHA-512 hash values. -/
def sha512H0 : List Nat := [
  7640891576956012808,
  13503953896175478587,
  4354685564936845355,
  11912009170470909681,
  5840696475078001361,
  11170449401992604703,
  2270897969802886507,
  6620516959819538809]

/-- State of the SHA-512 compression function: the eight working words. -/
structure Sha512State where
  a : Nat
  b : Nat
  c : Nat
  d : Nat
  e : Nat
  f : Nat
  g : Nat
  h : Nat

/-- One round of the SHA-512 compression function. -/
def sha512Round (s : Sha512State) (k wt : Nat) : Sha512State :=
  let t1 := (s.h + bigSigma1 s.e + shaCh s.e s.f s.g + k + wt) % w64
  let t2 := (bigSigma0 s.a + shaMaj s.a s.b s.c) % w64
  ⟨(t1 + t2) % w64, s.a, s.b, s.c, (s.d + t1) % w64, s.e, s.f, s.g⟩

/-- Extend the 16-word message schedule by `n` further words. -/
def sha512Schedule (w : Array Nat) : Nat → Array Nat
  | 0 => w
  | n + 1 =>
    let t := w.size
    let x := (smallSigma1 (w.getD (t - 2) 0) + w.getD (t - 7) 0 +
              smallSigma0 (w.getD (t - 15) 0) + w.getD (t - 16) 0) % w64
    sha512Schedule (w.push x) n

/-- Process one 128-byte block, updating the eight hash values. -/
def sha512Block (hs : List Nat) (block : List Nat) : List Nat :=
  let w16 := (listChunks 8 block).map beWord
  let w := sha512Schedule w16.toArray 64
  let s0 : Sha512State :=
    ⟨hs.getD 0 0, hs.getD 1 0, hs.getD 2 0, hs.getD 3 0,
     hs.getD 4 0, hs.getD 5 0, hs.getD 6 0, hs.getD 7 0⟩
  let sf := (sha512K.zip w.toList).foldl (fun s kw => sha512Round s kw.1 kw.2) s0
  [(hs.getD 0 0 + sf.a) % w64, (hs.getD 1 0 + sf.b) % w64,
   (hs.getD 2 0 + sf.c) % w64, (hs.getD 3 0 + sf.d) % w64,
   (hs.getD 4 0 + sf.e) % w64, (hs.getD 5 0 + sf.f) % w64,
   (hs.getD 6 0 + sf.g) % w64, (hs.getD 7 0 + sf.h) % w64]

/-- SHA-512 padding: append `0x80`, zeros to 112 mod 128, and the
bit length as a 16-byte big-endian number. -/
def sha512Pad (m : List Nat) : List Nat :=
  let L := m.length
  let z := (240 - (L + 1) % 128) % 128
  m ++ [128] ++ List.replicate z 0 ++ toBytesBE (8 * L) 16

/-- SHA-512 digest (64 bytes) of a byte list. -/
def sha512 (m : List Nat) : List Nat :=
  let blocks := listChunks 128 (sha512Pad m)
  let hf := blocks.foldl sha512Block sha512H0
  hf.foldr (fun x acc => toBytesBE x 8 ++ acc) []

/-- Lowercase hex character for a value `< 16`. -/
def hexChar (n : Nat) : Char :=
  "0123456789abcdef".toList.getD n 'x'

/-- Lowercase hex encoding of a byte list, as Python's `hexdigest`. -/
def hexdigest (bs : List Nat) : String :=
  String.mk (bs.foldr (fun b acc => hexChar (b / 16) :: hexChar (b % 16) :: acc) [])

/-- HMAC-SHA-512 (RFC 2104) with the 128-byte SHA-512 block size. -/
def hmacSha512 (key msg : List Nat) : List Nat :=
  let k0 := if 128 < key.length then sha512 key else key
  let kp := k0 ++ List.replicate (128 - k0.length) 0
  let ipadded := kp.map (fun b => b ^^^ 54)
  let opadded := kp.map (fun b => b ^^^ 92)
  sha512 (opadded ++ sha512 (ipadded ++ msg))

/-- UTF-8 bytes of a string, as Python's `str.encode()`; identical to
core's `String.toUTF8` but kept as a plain list so the kernel can
evaluate it. -/
def strBytes (s : String) : List Nat :=
  (s.data.flatMap String.utf8EncodeChar).map (fun b => b.toNat)

/-- Golden test vector: SHA-512 of the empty byte sequence. -/
theorem sha512_golden_empty :
    hexdigest (sha512 []) =
    "cf83e1357eefb8bdf1542850d66d8007d620e4050b5715dc83f4a921d36ce9ce47d0d13c5d85f2b0ff8318d2877eec2f63b931bd47417a81a538327af927da3e" := by
  decide

/-- Golden test vector: SHA-512 of the ASCII string `abc`. -/
theorem sha512_golden_abc :
    hexdigest (sha512 (strBytes ("abc"))) =
    "ddaf35a193617abacc417349ae20413112e6fa4e89a97ea20a9eeee64b55d39a2192992a274fc1a836ba3c23a3feebbd454d4423643ce80e2a9ac94fa54ca49f" := by
  decide

/-- Golden test vector: HMAC-SHA-512, RFC 4231 test case 1. -/
theorem hmacSha512_golden_rfc4231 :
    hexdigest (hmacSha512 (List.replicate 20 11) (strBytes ("Hi There"))) =
    "87aa7cdea5ef619d4ff0b4241a1d6cb02379f4e2ce4ec2787ad0b30545e17cdedaa833b7d6b8a702038b274eaea3f4e4be9d914eeb61f1702e696c203a126854" := by
  decide

/-! ## RequestSigner

Embeds `GateIOAPI._sign_request` from `main.py` (lines 43-67) and
`GateIOAPI._generate_signature` from `bot.py` (lines 42-50).  The
timestamp is an input: both functions receive the current clock value
as a string. -/

/-- Authentication headers returned by the signer. -/
structure SignHeaders where
  KEY : String
  Timestamp : String
  SIGN : String

/-- Embeds `GateIOAPI._sign_request` from `main.py`: hash the body if
it is nonempty (else hash nothing), join the five signature fields
with newlines, and HMAC-SHA-512 the result with the API secret. -/
def sign_request (api_key api_secret : String)
    (method url_path query_string body timestamp : String) : SignHeaders :=
  let hashed_payload :=
    if body ≠ "" then hexdigest (sha512 (strBytes body))
    else hexdigest (sha512 [])
  let signature_string :=
    method ++ "\n" ++ url_path ++ "\n" ++ query_string ++ "\n" ++ hashed_payload
      ++ "\n" ++ timestamp
  let signature := hexdigest (hmacSha512 (strBytes api_secret) (strBytes signature_string))
  { KEY := api_key, Timestamp := timestamp, SIGN := signature }

/-- Embeds `GateIOAPI._generate_signature` from `bot.py`: same payload,
but the body is hashed unconditionally. -/
def generate_signature (api_secret : String)
    (method uri query body timestamp : String) : String :=
  let message :=
    method ++ "\n" ++ uri ++ "\n" ++ query ++ "\n" ++ hexdigest (sha512 (strBytes body))
      ++ "\n" ++ timestamp
  hexdigest (hmacSha512 (strBytes api_secret) (strBytes message))

/-- The spec's signature payload, written from the words of section 4.1:
the five fields joined by newline characters in that exact order, the
body hash being the hex SHA-512 of the body bytes. -/
def signaturePayloadSpec (method path sortedQueryString : String)
    (bodyBytes : List Nat) (timestamp : String) : String :=
  method ++ "\n" ++ path ++ "\n" ++ sortedQueryString ++ "\n"
    ++ hexdigest (sha512 bodyBytes) ++ "\n" ++ timestamp

/-- The spec's SIGN value: hex HMAC-SHA-512 of the payload keyed by the
API secret. -/
def signSpec (apiSecret payload : String) : String :=
  hexdigest (hmacSha512 (strBytes apiSecret) (strBytes payload))

/-- Encoding the empty string yields the empty byte sequence. -/
theorem strBytes_empty : strBytes ("") = [] := rfl

/-- C1: For every request, the signature payload is exactly the five
fields method, path, sorted query string, body hash, and timestamp
joined by newline characters in that order, where the body hash is the
hex-encoded SHA-512 digest of the body bytes (the SHA-512 of the empty
byte sequence when there is no body), and SIGN is the hex-encoded
HMAC-SHA-512 of that payload keyed by the API secret, with KEY equal to
the API key unchanged.  The `bot.py` signer computes the same SIGN. -/
theorem c1_signature_payload
    (api_key api_secret method url_path query_string body timestamp : String) :
    (sign_request api_key api_secret method url_path query_string body timestamp).KEY
        = api_key ∧
    (sign_request api_key api_secret method url_path query_string body timestamp).Timestamp
        = timestamp ∧
    (sign_request api_key api_secret method url_path query_string body timestamp).SIGN
        = signSpec api_secret
            (signaturePayloadSpec method url_path query_string (strBytes body) timestamp) ∧
    generate_signature api_secret method url_path query_string body timestamp
        = (sign_request api_key api_secret method url_path query_string body timestamp).SIGN := by
  refine ⟨rfl, rfl, ?_, ?_⟩ <;>
    by_cases h : body = "" <;>
      simp [sign_request, generate_signature, signSpec, signaturePayloadSpec, h, strBytes_empty]

/-! ## RolloverCalculator

Embeds `RolloverBot.calculate_contract_size` (`main.py` lines 179-190)
and `RolloverBot.calculate_rollover_orders` (`main.py` lines 229-259).
Exact decimal arithmetic (`Decimal`) is modelled by `ℚ`. -/

/-- Truncation of a rational toward zero, as Python's `int()` applied
to a number and as `Decimal` rounding mode `ROUND_DOWN`. -/
def ratTrunc (q : ℚ) : ℤ := q.num.tdiv q.den

/-- Truncation toward zero to 2 decimal places, as
`Decimal.quantize(Decimal(0.01), rounding=ROUND_DOWN)`. -/
def quantizeDown2 (q : ℚ) : ℚ := (ratTrunc (q * 100) : ℚ) / 100

/-- Embeds `RolloverBot.calculate_contract_size`: notional divided by
price, truncated to an integer, floored at one contract.  A zero price
raises `ZeroDivisionError` in the source, caught by the handler that
returns 0; that branch is the `price = 0` case here. -/
def calculate_contract_size (symbol : String) (price margin : ℚ) (leverage : ℤ) : ℤ :=
  if price = 0 then 0
  else
    let contract_value := margin * leverage
    let contract_size := ratTrunc (contract_value / price)
    max 1 contract_size

/-- One element of the list returned by `calculate_rollover_orders`. -/
structure RolloverOrder where
  rollover_number : ℕ
  price : ℚ
  contract_size : ℤ
  margin_required : ℚ
deriving DecidableEq

/-- The loop body of `calculate_rollover_orders`: note that the running
price carried to the next iteration is `rollover_price`, the
untruncated product, while the emitted price is the truncated
`rollover_price_float`. -/
def rollover_orders_loop (initial_contract_size leverage : ℤ) :
    ℚ → ℕ → ℕ → List RolloverOrder
  | _, _, 0 => []
  | current_price, i, n + 1 =>
    let rollover_price := current_price * (102 / 100)
    let rollover_price_float := quantizeDown2 rollover_price
    let contract_size := initial_contract_size
    { rollover_number := i + 1,
      price := rollover_price_float,
      contract_size := contract_size,
      margin_required := contract_size * rollover_price_float / leverage } ::
      rollover_orders_loop initial_contract_size leverage rollover_price (i + 1) n

/-- Embeds `RolloverBot.calculate_rollover_orders`: computes the
initial contract size once from the entry price, then lays out
`roll_count` levels, each 2 percent above the previous running price
(`Decimal(1.02)` is hard-coded in the source). -/
def calculate_rollover_orders (entry_price margin : ℚ) (leverage : ℤ)
    (roll_count : ℕ) (symbol : String) : List RolloverOrder :=
  let initial_contract_size :=
    calculate_contract_size symbol entry_price margin leverage
  rollover_orders_loop initial_contract_size leverage entry_price 0 roll_count

/-! ## Arithmetic facts about truncation -/

/-- For nonnegative rationals, truncation toward zero is the floor. -/
theorem ratTrunc_eq_floor (q : ℚ) (hq : 0 ≤ q) : ratTrunc q = ⌊q⌋ := by
  rw [Rat.floor_def, ratTrunc]
  exact Int.tdiv_eq_ediv (Rat.num_nonneg.mpr hq) (Int.natCast_nonneg _)

/-- Truncation to 2 decimals never increases a nonnegative rational. -/
theorem quantizeDown2_le (q : ℚ) (hq : 0 ≤ q) : quantizeDown2 q ≤ q := by
  rw [quantizeDown2, ratTrunc_eq_floor _ (by positivity)]
  have h := Int.floor_le (q * 100)
  linarith

/-- Evaluation form of 2-decimal truncation on nonnegative input. -/
theorem quantizeDown2_eq_floor (q : ℚ) (hq : 0 ≤ q) :
    quantizeDown2 q = (⌊q * 100⌋ : ℚ) / 100 := by
  rw [quantizeDown2, ratTrunc_eq_floor _ (by positivity)]

/-- Truncation to 2 decimals is nonnegative on nonnegative input. -/
theorem quantizeDown2_nonneg (q : ℚ) (hq : 0 ≤ q) : 0 ≤ quantizeDown2 q := by
  rw [quantizeDown2, ratTrunc_eq_floor _ (by positivity)]
  have h : (0 : ℤ) ≤ ⌊q * 100⌋ := Int.floor_nonneg.mpr (by positivity)
  have h2 : (0 : ℚ) ≤ (⌊q * 100⌋ : ℚ) := by exact_mod_cast h
  linarith

/-- A 2 percent step, truncated to 2 decimals, still strictly exceeds
the starting value once that value is at least one half: the gained
`0.02 * c ≥ 0.01` survives the at-most-`0.01` truncation loss. -/
theorem lt_quantizeDown2_step (c : ℚ) (hc : 1 / 2 ≤ c) :
    c < quantizeDown2 (c * (102 / 100)) := by
  have h0 : (0 : ℚ) ≤ c := le_trans (by norm_num) hc
  rw [quantizeDown2, ratTrunc_eq_floor _ (by positivity)]
  have he : c * (102 / 100) * 100 = 102 * c := by ring
  rw [he]
  have h := Int.sub_one_lt_floor (102 * c)
  linarith

/-! ## Properties of the ladder -/

/-- Closed form of the emitted ladder prices: level `j` (0-based) emits
the 2-decimal truncation of `c * 1.02 ^ (j + 1)`; the running price the
loop carries is the untruncated product. -/
theorem rollover_loop_map_price (ics lv : ℤ) (n : ℕ) : ∀ (c : ℚ) (i : ℕ),
    (rollover_orders_loop ics lv c i n).map (fun o => o.price)
      = (List.range n).map (fun j => quantizeDown2 (c * (102 / 100) ^ (j + 1))) := by
  induction n with
  | zero => intro c i; simp [rollover_orders_loop]
  | succ n ih =>
    intro c i
    rw [List.range_succ_eq_map]
    simp only [rollover_orders_loop, List.map_cons, List.map_map]
    refine congrArg₂ List.cons (by norm_num) ?_
    rw [ih (c * (102 / 100)) (i + 1)]
    have hfe : (fun j => quantizeDown2 (c * (102 / 100) * (102 / 100) ^ (j + 1)))
        = fun j => quantizeDown2 (c * (102 / 100) ^ (j + 1 + 1)) := by
      funext j
      congr 1
      ring
    simp only [Function.comp_def]
    rw [hfe]

/-- Every order in the loop output carries the contract size the loop
was seeded with. -/
theorem rollover_loop_contract_size (ics lv : ℤ) (n : ℕ) : ∀ (c : ℚ) (i : ℕ),
    ∀ o ∈ rollover_orders_loop ics lv c i n, o.contract_size = ics := by
  induction n with
  | zero => intro c i o ho; simp [rollover_orders_loop] at ho
  | succ n ih =>
    intro c i o ho
    simp only [rollover_orders_loop, List.mem_cons] at ho
    rcases ho with rfl | ho
    · rfl
    · exact ih (c * (102 / 100)) (i + 1) o ho

/-- The emitted prices form a strictly increasing chain above any
starting point `p ≤ c`, provided the running price stays `≥ 1/2`. -/
theorem rollover_loop_chain (ics lv : ℤ) (n : ℕ) : ∀ (c p : ℚ) (i : ℕ),
    1 / 2 ≤ c → p ≤ c →
    List.Chain (fun a b => a < b) p
      ((rollover_orders_loop ics lv c i n).map (fun o => o.price)) := by
  induction n with
  | zero => intro c p i _ _; simp [rollover_orders_loop, List.Chain.nil]
  | succ n ih =>
    intro c p i hc hp
    have h0 : (0 : ℚ) ≤ c := le_trans (by norm_num) hc
    have hcr : 1 / 2 ≤ c * (102 / 100) := by nlinarith
    have hr0 : (0 : ℚ) ≤ c * (102 / 100) := by positivity
    simp only [rollover_orders_loop, List.map_cons]
    exact List.Chain.cons (lt_of_le_of_lt hp (lt_quantizeDown2_step c hc))
      (ih (c * (102 / 100)) _ (i + 1) hcr (quantizeDown2_le _ hr0))

/-- C2 counterexample: truncation does NOT chain.  With entry price
100.49 the code emits level 1 price 102.49 and level 2 price 104.54,
but the 2-decimal truncation of 102.49 * 1.02 = 104.5398 is 104.53:
level 2 is computed from the untruncated 102.4998, not from the
truncated level 1 price, refuting the claim as stated. -/
theorem c2_counterexample :
    (calculate_rollover_orders (10049 / 100) 100 10 2 "BTC_USDT").map (fun o => o.price)
        = [10249 / 100, 10454 / 100] ∧
    quantizeDown2 ((10249 / 100) * (102 / 100)) = 10453 / 100 ∧
    ((10454 : ℚ) / 100) ≠ 10453 / 100 := by
  refine ⟨?_, ?_, by norm_num⟩
  · norm_num [calculate_rollover_orders, rollover_orders_loop, calculate_contract_size,
      quantizeDown2_eq_floor, ratTrunc_eq_floor]
  · rw [quantizeDown2_eq_floor _ (by norm_num)]
    norm_num

/-- C2 amended: level `i`'s emitted trigger price is the 2-decimal
truncation (round-toward-zero) of entryPrice * 1.02 ^ i, the running
price carried between levels being the untruncated product, so the
truncation does not chain; the interval is the hard-coded 2 percent.
In particular, for entryPrice = 100.00 the emitted prices are exactly
102.00 and 104.04 with no floating-point drift. -/
theorem c2_amended_prices (entry_price margin : ℚ) (leverage : ℤ) (roll_count : ℕ)
    (symbol : String) :
    (calculate_rollover_orders entry_price margin leverage roll_count symbol).map
        (fun o => o.price)
      = (List.range roll_count).map
          (fun j => quantizeDown2 (entry_price * (102 / 100) ^ (j + 1))) ∧
    (calculate_rollover_orders 100 100 10 2 "BTC_USDT").map (fun o => o.price)
      = [102, 10404 / 100] := by
  refine ⟨rollover_loop_map_price _ _ _ _ _, ?_⟩
  norm_num [calculate_rollover_orders, rollover_orders_loop, calculate_contract_size,
    quantizeDown2_eq_floor, ratTrunc_eq_floor]

/-- C3 counterexample: with entry price 0.10 the single ladder level is
emitted at price 0.10 (truncation of 0.102), which is not strictly
greater than the entry price, refuting strict increase as stated. -/
theorem c3_counterexample :
    ¬ List.Chain (fun a b => a < b) (1 / 10)
        ((calculate_rollover_orders (1 / 10) 100 10 1 "BTC_USDT").map (fun o => o.price)) := by
  have hlist : (calculate_rollover_orders (1 / 10) 100 10 1 "BTC_USDT").map (fun o => o.price)
      = [1 / 10] := by
    norm_num [calculate_rollover_orders, rollover_orders_loop, calculate_contract_size,
      quantizeDown2_eq_floor, ratTrunc_eq_floor]
  rw [hlist]
  simp only [List.chain_cons, List.Chain.nil, and_true]
  norm_num

/-- C3 amended: provided the entry price is at least 0.5 (so that the 2
percent step survives the at-most-0.01 truncation loss), the emitted
trigger prices strictly increase, level 1 strictly above the entry
price, which counts as level 0. -/
theorem c3_amended_strictly_increasing (entry_price margin : ℚ) (leverage : ℤ)
    (roll_count : ℕ) (symbol : String) (h : 1 / 2 ≤ entry_price) :
    List.Chain (fun a b => a < b) entry_price
      ((calculate_rollover_orders entry_price margin leverage roll_count symbol).map
        (fun o => o.price)) := by
  unfold calculate_rollover_orders
  exact rollover_loop_chain _ leverage roll_count entry_price entry_price 0 h le_rfl

/-- Witness for C3: the amended theorem applied at entry 100 with a
2-level ladder. -/
theorem c3_witness :
    (1 : ℚ) / 2 ≤ 100 ∧
    List.Chain (fun a b => a < b) (100 : ℚ)
      ((calculate_rollover_orders 100 100 10 2 "BTC_USDT").map (fun o => o.price)) :=
  ⟨by norm_num, c3_amended_strictly_increasing 100 100 10 2 "BTC_USDT" (by norm_num)⟩

/-- C4: for positive price and margin and leverage in 1..100, the
contract-size computation returns max(1, floor(margin * leverage /
price)), hence never zero or negative; degenerate inputs yield the
1-contract floor rather than an error. -/
theorem c4_contract_size_floor (symbol : String) (price margin : ℚ) (leverage : ℤ)
    (hp : 0 < price) (hm : 0 < margin) (h1 : 1 ≤ leverage) (h2 : leverage ≤ 100) :
    calculate_contract_size symbol price margin leverage
        = max 1 ⌊margin * leverage / price⌋ ∧
    1 ≤ calculate_contract_size symbol price margin leverage := by
  have hlv : (0 : ℚ) ≤ (leverage : ℚ) := by exact_mod_cast le_trans zero_le_one h1
  have hq : (0 : ℚ) ≤ margin * leverage / price := by positivity
  have hne : price ≠ 0 := ne_of_gt hp
  constructor
  · simp only [calculate_contract_size, if_neg hne]
    rw [ratTrunc_eq_floor _ hq]
  · simp only [calculate_contract_size, if_neg hne]
    exact le_max_left _ _

/-- Witness for C4: a degenerate input, price 1000 against notional
1 * 1 = 1, still yields the 1-contract floor. -/
theorem c4_witness :
    (0 : ℚ) < 1000 ∧ (0 : ℚ) < 1 ∧ (1 : ℤ) ≤ 1 ∧ (1 : ℤ) ≤ 100 ∧
    (calculate_contract_size ("BTC_USDT") 1000 1 1 = max 1 ⌊(1 : ℚ) * (1 : ℤ) / 1000⌋ ∧
     1 ≤ calculate_contract_size ("BTC_USDT") 1000 1 1) :=
  ⟨by norm_num, by norm_num, le_refl 1, by norm_num,
    c4_contract_size_floor ("BTC_USDT") 1000 1 1 (by norm_num) (by norm_num)
      (le_refl 1) (by norm_num)⟩

/-- C5: within one call to the ladder calculator, the contract size is
computed once from the entry price, margin and leverage, and every
level of the resulting ladder carries that identical contract size. -/
theorem c5_constant_contract_size (entry_price margin : ℚ) (leverage : ℤ)
    (roll_count : ℕ) (symbol : String) :
    ∀ o ∈ calculate_rollover_orders entry_price margin leverage roll_count symbol,
      o.contract_size = calculate_contract_size symbol entry_price margin leverage := by
  intro o ho
  exact rollover_loop_contract_size _ leverage roll_count entry_price 0 o ho

/-- Witness for C5: the first level of a concrete ladder carries the
entry-price contract size. -/
theorem c5_witness :
    ({ rollover_number := 1, price := 102, contract_size := 10, margin_required := 102 }
        : RolloverOrder) ∈ calculate_rollover_orders 100 100 10 2 "BTC_USDT" ∧
    ({ rollover_number := 1, price := 102, contract_size := 10, margin_required := 102 }
        : RolloverOrder).contract_size = calculate_contract_size ("BTC_USDT") 100 100 10 := by
  have h : calculate_rollover_orders 100 100 10 2 "BTC_USDT"
      = [{ rollover_number := 1, price := 102, contract_size := 10, margin_required := 102 },
         { rollover_number := 2, price := 2601 / 25, contract_size := 10,
           margin_required := 2601 / 25 }] := by
    norm_num [calculate_rollover_orders, rollover_orders_loop, calculate_contract_size,
      quantizeDown2_eq_floor, ratTrunc_eq_floor, RolloverOrder.mk.injEq]
  refine ⟨by rw [h]; exact List.mem_cons_self _ _, ?_⟩
  exact c5_constant_contract_size 100 100 10 2 "BTC_USDT"
    { rollover_number := 1, price := 102, contract_size := 10, margin_required := 102 }
    (by rw [h]; exact List.mem_cons_self _ _)

/-- C10: the contract-size computation ignores its symbol argument:
any two calls differing only in the symbol agree (two-run
noninterference of the symbol input on the output). -/
theorem c10_symbol_noninterference (s1 s2 : String) (price margin : ℚ) (leverage : ℤ) :
    calculate_contract_size s1 price margin leverage
      = calculate_contract_size s2 price margin leverage := rfl

/-! ## ExchangeClient order payloads

Embeds `GateIOAPI.place_order` (`main.py` lines 155-171) and the two
wrappers `RolloverBot.place_market_order` (lines 201-213) and
`RolloverBot.place_limit_order` (lines 215-227). -/

/-- The JSON order payload built by `place_order`. -/
structure FuturesOrderData where
  contract : String
  size : ℤ
  price : String
  tif : String
deriving DecidableEq

/-- Embeds the payload construction of `place_order`: the size is sent
as its absolute value (buy side; no short path), and a price equal to
the string zero is kept as the string zero. -/
def place_order_data (symbol : String) (size : ℤ) (price tif : String) :
    FuturesOrderData :=
  let order_size := |size|
  { contract := symbol
    size := order_size
    price := if price = "0" then "0" else price
    tif := tif }

/-- The payload `place_market_order` sends through `place_order`:
price zero and time-in-force ioc. -/
def market_order_data (symbol : String) (contract_size : ℤ) : FuturesOrderData :=
  place_order_data symbol contract_size ("0") ("ioc")

/-- The payload `place_limit_order` sends through `place_order`: the
rendered price (Python's str applied to the price, modelled by an
explicit rendering function) and time-in-force gtc. -/
def limit_order_data (pstr : ℚ → String) (symbol : String) (contract_size : ℤ)
    (price : ℚ) : FuturesOrderData :=
  place_order_data symbol contract_size (pstr price) ("gtc")

/-- C8: every order sent to the exchange encodes its type by the
price/time-in-force pair: a market order is sent with price zero
together with time-in-force ioc, a resting limit order with a non-zero
price together with time-in-force gtc, and the size field is always a
positive magnitude (long-only; the absolute value leaves no short
path).  The rendering function is assumed not to print a positive
price as the string zero, as Python's str never does. -/
theorem c8_order_encoding (pstr : ℚ → String) (symbol : String) (contract_size : ℤ)
    (price : ℚ) (hps : ∀ q : ℚ, 0 < q → pstr q ≠ "0") (hp : 0 < price)
    (hs : contract_size ≠ 0) :
    ((market_order_data symbol contract_size).price = "0" ∧
     (market_order_data symbol contract_size).tif = "ioc" ∧
     (market_order_data symbol contract_size).size = |contract_size| ∧
     0 < (market_order_data symbol contract_size).size) ∧
    ((limit_order_data pstr symbol contract_size price).price ≠ "0" ∧
     (limit_order_data pstr symbol contract_size price).tif = "gtc" ∧
     (limit_order_data pstr symbol contract_size price).size = |contract_size| ∧
     0 < (limit_order_data pstr symbol contract_size price).size) := by
  have habs : 0 < |contract_size| := abs_pos.mpr hs
  have hpz := hps price hp
  refine ⟨⟨rfl, rfl, rfl, habs⟩, ⟨?_, rfl, rfl, habs⟩⟩
  simp only [limit_order_data, place_order_data, if_neg hpz]
  exact hpz

/-- Witness for C8 at a concrete renderer, price and size. -/
theorem c8_witness :
    (∀ q : ℚ, 0 < q → (fun _ => "102.49") q ≠ "0") ∧ (0 : ℚ) < 102 ∧ (10 : ℤ) ≠ 0 ∧
    (((market_order_data ("BTC_USDT") 10).price = "0" ∧
      (market_order_data ("BTC_USDT") 10).tif = "ioc" ∧
      (market_order_data ("BTC_USDT") 10).size = |(10 : ℤ)| ∧
      0 < (market_order_data ("BTC_USDT") 10).size) ∧
     ((limit_order_data (fun _ => "102.49") ("BTC_USDT") 10 102).price ≠ "0" ∧
      (limit_order_data (fun _ => "102.49") ("BTC_USDT") 10 102).tif = "gtc" ∧
      (limit_order_data (fun _ => "102.49") ("BTC_USDT") 10 102).size = |(10 : ℤ)| ∧
      0 < (limit_order_data (fun _ => "102.49") ("BTC_USDT") 10 102).size)) :=
  ⟨fun _ _ => (by decide : ("102.49" : String) ≠ "0"), by norm_num, by decide,
    c8_order_encoding (fun _ => "102.49") ("BTC_USDT") 10 102
      (fun _ _ => (by decide : ("102.49" : String) ≠ "0")) (by norm_num) (by decide)⟩

/-! ## StrategyExecutor

Embeds `execute_rollover_strategy` (`main.py` lines 438-527).  The
network is an environment fixing the outcome of each HTTP call: the
ticker test, the leverage test, and for each placement invocation the
outcome of its internal `set_leverage` call and of its `place_order`
call (both wrappers call `set_leverage` before placing). -/

/-- Outcomes the environment assigns to one placement invocation. -/
structure PlacementEnv where
  lev : Except String Unit
  ord : Except String Nat

/-- The network environment of one executor run. -/
structure ExecEnv where
  ticker : Except String ℚ
  setupLev : Except String Unit
  entry : PlacementEnv
  ladder : ℕ → PlacementEnv

/-- Status of a ladder level after execution. -/
inductive LevelStatus where
  | Placed
  | Failed
deriving DecidableEq

/-- Observable result of one executor run. -/
structure ExecResult where
  entrySuccess : Bool
  ladder : List LevelStatus
  placeOrderCalls : ℕ
deriving DecidableEq

/-- Embeds `RolloverBot.place_market_order`: the try block sets
leverage, then places the order; any exception from either call is
caught and the call reports failure with the boolean false. -/
def place_market_order (levRes : Except String Unit) (orderRes : Except String Nat) :
    Bool :=
  match levRes with
  | .error _ => false
  | .ok _ =>
    match orderRes with
    | .error _ => false
    | .ok _ => true

/-- Embeds `RolloverBot.place_limit_order`: identical control flow to
`place_market_order`, with a limit price instead of the market price. -/
def place_limit_order (levRes : Except String Unit) (orderRes : Except String Nat) :
    Bool :=
  match levRes with
  | .error _ => false
  | .ok _ =>
    match orderRes with
    | .error _ => false
    | .ok _ => true

/-- Number of `place_order` HTTP calls one wrapper invocation makes:
one when its internal `set_leverage` succeeded, none when that raised
(the exception skips the order request). -/
def placement_order_calls (p : PlacementEnv) : ℕ :=
  match p.lev with
  | .ok _ => 1
  | .error _ => 0

/-- The ladder loop of `execute_rollover_strategy`: every order is
attempted in sequence; a failed placement is reported for its level and
the loop continues with the next level. -/
def place_ladder_orders (env : ℕ → PlacementEnv) :
    ℕ → List RolloverOrder → List LevelStatus × ℕ
  | _, [] => ([], 0)
  | i, _ :: rest =>
    let ok := place_limit_order (env i).lev (env i).ord
    let r := place_ladder_orders env (i + 1) rest
    ((if ok then LevelStatus.Placed else LevelStatus.Failed) :: r.1,
      placement_order_calls (env i) + r.2)

/-- Embeds `execute_rollover_strategy`: API connectivity test, leverage
test, contract sizing with the defensive non-positive check, entry
placement (market or limit), then the ladder loop.  Each failing setup
step returns immediately; a failing entry placement returns before any
ladder order is attempted. -/
def execute_rollover_strategy (env : ExecEnv) (entry_price margin : ℚ)
    (leverage : ℤ) (orders : List RolloverOrder) (isMarket : Bool)
    (symbol : String) : ExecResult :=
  match env.ticker with
  | .error _ => { entrySuccess := false, ladder := [], placeOrderCalls := 0 }
  | .ok _ =>
    match env.setupLev with
    | .error _ => { entrySuccess := false, ladder := [], placeOrderCalls := 0 }
    | .ok _ =>
      let initial_contract_size := calculate_contract_size symbol entry_price margin leverage
      if initial_contract_size ≤ 0 then
        { entrySuccess := false, ladder := [], placeOrderCalls := 0 }
      else
        let entryOk :=
          if isMarket then place_market_order env.entry.lev env.entry.ord
          else place_limit_order env.entry.lev env.entry.ord
        if entryOk = false then
          { entrySuccess := false, ladder := [],
            placeOrderCalls := placement_order_calls env.entry }
        else
          let r := place_ladder_orders env.ladder 0 orders
          { entrySuccess := true, ladder := r.1,
            placeOrderCalls := placement_order_calls env.entry + r.2 }

/-- C9: the single-order placement wrappers never propagate an
exception: they are total boolean functions of the two underlying API
outcomes, returning true exactly when both the internal leverage-set
call and the order request succeeded, and false on every failure,
including a leverage-set failure inside them. -/
theorem c9_wrappers_never_raise (levRes : Except String Unit)
    (orderRes : Except String Nat) :
    (place_market_order levRes orderRes = true ↔
      (∃ u, levRes = Except.ok u) ∧ (∃ n, orderRes = Except.ok n)) ∧
    (place_limit_order levRes orderRes = true ↔
      (∃ u, levRes = Except.ok u) ∧ (∃ n, orderRes = Except.ok n)) := by
  cases levRes <;> cases orderRes <;>
    simp [place_market_order, place_limit_order]

/-- The ladder loop visits every order: one status per input order. -/
theorem place_ladder_orders_length (env : ℕ → PlacementEnv) :
    ∀ (os : List RolloverOrder) (i : ℕ),
      (place_ladder_orders env i os).1.length = os.length := by
  intro os
  induction os with
  | nil => intro i; rfl
  | cons o rest ih =>
    intro i
    simp only [place_ladder_orders, List.length_cons]
    rw [ih (i + 1)]

/-- Each level's reported status depends only on that level's own
placement outcome: position `j` of the loop started at `i` reflects the
environment's answer for invocation `i + j`. -/
theorem place_ladder_orders_get (env : ℕ → PlacementEnv) :
    ∀ (os : List RolloverOrder) (i j : ℕ), j < os.length →
      (place_ladder_orders env i os).1.get? j
        = some (if place_limit_order (env (i + j)).lev (env (i + j)).ord
                then LevelStatus.Placed else LevelStatus.Failed) := by
  intro os
  induction os with
  | nil => intro i j hj; simp at hj
  | cons o rest ih =>
    intro i j hj
    cases j with
    | zero => simp [place_ladder_orders]
    | succ j =>
      have hj1 : j < rest.length := by simpa using hj
      have := ih (i + 1) j hj1
      simp only [place_ladder_orders, List.get?_cons_succ]
      rw [this, show i + 1 + j = i + (j + 1) by omega]

/-- C6: once the run reaches the ladder (connectivity, leverage,
sizing and the entry order all succeeded), every level is attempted no
matter what the earlier levels returned: the run reports one status per
ladder level, and a level is reported Failed exactly when its own
placement invocation failed, the following levels still being
attempted.  The executor is a total function, so no individual ladder
failure can abort it. -/
theorem c6_ladder_partial_failure (env : ExecEnv) (entry_price margin : ℚ)
    (leverage : ℤ) (orders : List RolloverOrder) (isMarket : Bool) (symbol : String)
    (ht : ∃ q, env.ticker = Except.ok q) (hl : env.setupLev = Except.ok ())
    (hsz : 0 < calculate_contract_size symbol entry_price margin leverage)
    (hentry : (if isMarket then place_market_order env.entry.lev env.entry.ord
               else place_limit_order env.entry.lev env.entry.ord) = true) :
    (execute_rollover_strategy env entry_price margin leverage orders isMarket
        symbol).ladder.length = orders.length ∧
    ∀ j, j < orders.length →
      (execute_rollover_strategy env entry_price margin leverage orders isMarket
          symbol).ladder.get? j
        = some (if place_limit_order (env.ladder j).lev (env.ladder j).ord
                then LevelStatus.Placed else LevelStatus.Failed) := by
  obtain ⟨q, hq⟩ := ht
  have hnsz : ¬ calculate_contract_size symbol entry_price margin leverage ≤ 0 :=
    not_le.mpr hsz
  simp only [execute_rollover_strategy, hq, hl, hnsz, if_false, hentry,
    Bool.true_eq_false, if_neg]
  constructor
  · exact place_ladder_orders_length env.ladder orders 0
  · intro j hj
    have := place_ladder_orders_get env.ladder orders 0 j hj
    rwa [Nat.zero_add] at this

/-- A wrapper invocation makes at most one `place_order` call. -/
theorem placement_order_calls_le_one (p : PlacementEnv) :
    placement_order_calls p ≤ 1 := by
  cases h : p.lev <;> simp [placement_order_calls, h]

/-- C7: setup failures are fatal and strictly ordered before any
ladder activity.  If the leverage test fails, the run stops with zero
`place_order` calls of any kind and an empty ladder; if the entry
placement fails, the run stops having made at most the entry's own
order call (none of the ladder), and the reported ladder is empty. -/
theorem c7_fatal_setup_failures (env : ExecEnv) (entry_price margin : ℚ)
    (leverage : ℤ) (orders : List RolloverOrder) (isMarket : Bool) (symbol : String) :
    ((∃ e, env.setupLev = Except.error e) →
      (execute_rollover_strategy env entry_price margin leverage orders isMarket
          symbol).placeOrderCalls = 0 ∧
      (execute_rollover_strategy env entry_price margin leverage orders isMarket
          symbol).ladder = []) ∧
    ((if isMarket then place_market_order env.entry.lev env.entry.ord
      else place_limit_order env.entry.lev env.entry.ord) = false →
      (execute_rollover_strategy env entry_price margin leverage orders isMarket
          symbol).placeOrderCalls ≤ 1 ∧
      (execute_rollover_strategy env entry_price margin leverage orders isMarket
          symbol).ladder = []) := by
  constructor
  · rintro ⟨e, he⟩
    cases hq : env.ticker <;>
      simp [execute_rollover_strategy, hq, he]
  · intro hef
    cases hq : env.ticker with
    | error msg => simp [execute_rollover_strategy, hq]
    | ok q =>
      cases hlev : env.setupLev with
      | error msg => simp [execute_rollover_strategy, hq, hlev]
      | ok u =>
        by_cases hsz : calculate_contract_size symbol entry_price margin leverage ≤ 0
        · simp [execute_rollover_strategy, hq, hlev, hsz]
        · simp only [execute_rollover_strategy, hq, hlev, if_pos, if_neg hsz, hef,
            if_pos rfl]
          exact ⟨placement_order_calls_le_one env.entry, trivial⟩

/-- Environment for the C7 witness: the leverage test raises. -/
def c7EnvSetupFail : ExecEnv :=
  { ticker := Except.ok 100
    setupLev := Except.error ("leverage rejected")
    entry := { lev := Except.ok (), ord := Except.ok 1 }
    ladder := fun _ => { lev := Except.ok (), ord := Except.ok 1 } }

/-- Environment for the C7 witness: setup succeeds, the entry order
request raises. -/
def c7EnvEntryFail : ExecEnv :=
  { ticker := Except.ok 100
    setupLev := Except.ok ()
    entry := { lev := Except.ok (), ord := Except.error ("order rejected") }
    ladder := fun _ => { lev := Except.ok (), ord := Except.ok 1 } }

/-- A 2-level ladder used as concrete input by the C7 witness. -/
def c7Orders : List RolloverOrder :=
  [{ rollover_number := 1, price := 102, contract_size := 10, margin_required := 102 },
   { rollover_number := 2, price := 2601 / 25, contract_size := 10,
     margin_required := 2601 / 25 }]

/-- Witness for C7: with a failing leverage test no order call is made
at all; with a failing entry order the run makes at most the entry call
and reports an empty ladder, though two ladder levels were requested. -/
theorem c7_witness :
    ((execute_rollover_strategy c7EnvSetupFail 100 100 10 c7Orders false
        ("BTC_USDT")).placeOrderCalls = 0 ∧
     (execute_rollover_strategy c7EnvSetupFail 100 100 10 c7Orders false
        ("BTC_USDT")).ladder = []) ∧
    ((execute_rollover_strategy c7EnvEntryFail 100 100 10 c7Orders false
        ("BTC_USDT")).placeOrderCalls ≤ 1 ∧
     (execute_rollover_strategy c7EnvEntryFail 100 100 10 c7Orders false
        ("BTC_USDT")).ladder = []) :=
  ⟨(c7_fatal_setup_failures c7EnvSetupFail 100 100 10 c7Orders false ("BTC_USDT")).1
      ⟨"leverage rejected", rfl⟩,
   (c7_fatal_setup_failures c7EnvEntryFail 100 100 10 c7Orders false ("BTC_USDT")).2
      rfl⟩

/-- Environment for the C6 witness: everything succeeds except the
third ladder level's order request. -/
def c6Env : ExecEnv :=
  { ticker := Except.ok 100
    setupLev := Except.ok ()
    entry := { lev := Except.ok (), ord := Except.ok 7 }
    ladder := fun i =>
      if i = 2 then { lev := Except.ok (), ord := Except.error ("order rejected") }
      else { lev := Except.ok (), ord := Except.ok i } }

/-- A 5-level ladder used as concrete input by the C6 witness. -/
def c6Orders : List RolloverOrder :=
  [{ rollover_number := 1, price := 102, contract_size := 10, margin_required := 102 },
   { rollover_number := 2, price := 2601 / 25, contract_size := 10,
     margin_required := 2601 / 25 },
   { rollover_number := 3, price := 10612 / 100, contract_size := 10,
     margin_required := 10612 / 100 },
   { rollover_number := 4, price := 10824 / 100, contract_size := 10,
     margin_required := 10824 / 100 },
   { rollover_number := 5, price := 11040 / 100, contract_size := 10,
     margin_required := 11040 / 100 }]

/-- Witness for C6: the 5-level scenario in which only level 3's
placement fails; the run visits all five levels and reports exactly
levels 1, 2, 4, 5 placed and level 3 failed. -/
theorem c6_witness :
    ((∃ q, c6Env.ticker = Except.ok q) ∧ c6Env.setupLev = Except.ok () ∧
     0 < calculate_contract_size ("BTC_USDT") 100 100 10 ∧
     (if false then place_market_order c6Env.entry.lev c6Env.entry.ord
      else place_limit_order c6Env.entry.lev c6Env.entry.ord) = true) ∧
    ((execute_rollover_strategy c6Env 100 100 10 c6Orders false
        ("BTC_USDT")).ladder.length = c6Orders.length ∧
     ∀ j, j < c6Orders.length →
       (execute_rollover_strategy c6Env 100 100 10 c6Orders false
           ("BTC_USDT")).ladder.get? j
         = some (if place_limit_order (c6Env.ladder j).lev (c6Env.ladder j).ord
                 then LevelStatus.Placed else LevelStatus.Failed)) ∧
    (execute_rollover_strategy c6Env 100 100 10 c6Orders false ("BTC_USDT")).ladder
      = [LevelStatus.Placed, LevelStatus.Placed, LevelStatus.Failed,
         LevelStatus.Placed, LevelStatus.Placed] := by
  have h100 : (100 : ℚ) ≠ 0 := by norm_num
  have hsz : 0 < calculate_contract_size ("BTC_USDT") 100 100 10 := by
    simp only [calculate_contract_size, if_neg h100]
    exact lt_max_iff.mpr (Or.inl zero_lt_one)
  refine ⟨⟨⟨100, rfl⟩, rfl, hsz, rfl⟩, ?_, ?_⟩
  · exact c6_ladder_partial_failure c6Env 100 100 10 c6Orders false ("BTC_USDT")
      ⟨100, rfl⟩ rfl hsz rfl
  · have hns : ¬ calculate_contract_size ("BTC_USDT") 100 100 10 ≤ 0 := not_le.mpr hsz
    simp [execute_rollover_strategy, c6Env, c6Orders, place_ladder_orders,
      place_limit_order, placement_order_calls, hns]
